import Mathlib

/-!
Verification of the github-mcp-sse repository (a GitHub MCP server over
SSE transport).  The repository holds two variant implementations:

  * variant 1 (v1.0.0) in src/index.ts: a Server with explicit
    ListTools/CallTool request handlers, a transports Map keyed by a
    locally generated random string, and a POST /message endpoint that
    replies 400 on an unknown session;
  * variant 2 (v1.1.0), embedded in README.md: an McpServer with
    per-tool try/catch handlers, a transports record keyed by the
    transport announced session identifier, a 10 second keep-alive
    timer, SHA auto-fetch for file update and delete, and a POST
    /message endpoint that replies 404 on an unknown session.

This file shallowly embeds both variants: JSON values, the JSON
serializer used for result framing, the upstream Octokit client as a
record of fallible operations, the tool handlers, the CallTool
dispatcher of variant 1, the auto-fetch file handlers of variant 2
(instrumented with an upstream call trace), the session table of both
variants, and the keep-alive timer as a small transition system.
-/

namespace GithubMcpSse

/-- JSON values.  Object fields are an ordered association list, which
mirrors the insertion-ordered string keys of JavaScript objects; numbers
are modelled as integers (every JSON number appearing in the embedded
handlers is integral). -/
inductive Json where
  | null : Json
  | bool : Bool → Json
  | num : Int → Json
  | str : String → Json
  | arr : List Json → Json
  | obj : List (String × Json) → Json
deriving Inhabited

/-- Escape one character for a JSON string literal, as JSON.stringify
does for the quote, backslash and common control characters. -/
def jsonEscapeChar (c : Char) : String :=
  if c = '"' then "\\\""
  else if c = '\\' then "\\\\"
  else if c = '\n' then "\\n"
  else if c = '\t' then "\\t"
  else if c = '\r' then "\\r"
  else String.singleton c

/-- Escape a string for a JSON string literal. -/
def jsonEscape (s : String) : String :=
  String.join (s.toList.map jsonEscapeChar)

/-- A quoted JSON string literal. -/
def jsonQuote (s : String) : String :=
  "\"" ++ jsonEscape s ++ "\""

/-- Indentation of JSON.stringify(x, null, 2): two spaces per nesting
level. -/
def indentStr (d : Nat) : String :=
  String.join (List.replicate d "  ")

mutual

/-- Rendering of JSON.stringify(x, null, 2) at nesting depth d. -/
def renderJson (d : Nat) : Json → String
  | .null => "null"
  | .bool true => "true"
  | .bool false => "false"
  | .num n => toString n
  | .str s => jsonQuote s
  | .arr [] => "[]"
  | .arr (x :: xs) =>
      "[\n" ++ String.intercalate ",\n" (renderArr (d + 1) (x :: xs)) ++
      "\n" ++ indentStr d ++ "]"
  | .obj [] => "\x7b\x7d"
  | .obj (f :: fs) =>
      "\x7b\n" ++ String.intercalate ",\n" (renderObj (d + 1) (f :: fs)) ++
      "\n" ++ indentStr d ++ "\x7d"

/-- Rendered array elements, one string per element, each prefixed by
its indentation. -/
def renderArr (d : Nat) : List Json → List String
  | [] => []
  | x :: xs => (indentStr d ++ renderJson d x) :: renderArr d xs

/-- Rendered object fields, one string per field, each prefixed by its
indentation. -/
def renderObj (d : Nat) : List (String × Json) → List String
  | [] => []
  | (k, v) :: fs =>
      (indentStr d ++ jsonQuote k ++ ": " ++ renderJson d v) :: renderObj d fs

end

/-- JSON.stringify(x, null, 2), the serialization used by every tool
handler and by the variant 1 dispatcher to frame results. -/
def jsonStringify (j : Json) : String := renderJson 0 j

/-- Field lookup on a JSON object: the JavaScript member access o.k (and
the test k in o) for object values; non-objects have no fields. -/
def Json.getField? (j : Json) (k : String) : Option Json :=
  match j with
  | .obj fs => fs.lookup k
  | _ => none

/-- JavaScript member access o.k where an absent field is modelled as
null. -/
def jsField (j : Json) (k : String) : Json :=
  (j.getField? k).getD Json.null

/-- JavaScript optional chaining o?.k: accessing a member of a missing
value yields a missing value instead of faulting. -/
def jsOptField (j : Json) (k : String) : Json :=
  match j with
  | .null => Json.null
  | _ => jsField j k

/-- JavaScript truthiness of a JSON value (used by tests like
data.content being truthy). -/
def jsTruthy (j : Json) : Bool :=
  match j with
  | .null => false
  | .bool b => b
  | .num n => n != 0
  | .str s => s != ""
  | .arr _ => true
  | .obj _ => true

/-- A thrown JavaScript error: octokit request errors carry an HTTP
status (absent for plain errors such as network faults thrown before a
response) and a message. -/
structure JsError where
  status : Option Nat
  message : String
deriving Repr, DecidableEq, Inhabited

/-- UTF-8 encoding of one character as byte values. -/
def utf8Bytes (c : Char) : List Nat :=
  let n := c.toNat
  if n < 128 then [n]
  else if n < 2048 then [192 + n / 64, 128 + n % 64]
  else if n < 65536 then [224 + n / 4096, 128 + (n / 64) % 64, 128 + n % 64]
  else [240 + n / 262144, 128 + (n / 4096) % 64, 128 + (n / 64) % 64,
        128 + n % 64]

/-- The UTF-8 byte sequence of a string (Buffer.from(s)). -/
def strBytes (s : String) : List Nat :=
  s.toList.flatMap utf8Bytes

/-- The base64 alphabet. -/
def base64Alphabet : List Char :=
  "ABCDEFGHIJKLMNOPQRSTUVWXYZabcdefghijklmnopqrstuvwxyz0123456789+/".toList

/-- The base64 digit for a 6-bit value. -/
def b64Digit (n : Nat) : Char :=
  base64Alphabet.getD n 'A'

/-- Base64 encoding of a byte list, with padding, as
Buffer.toString(base64) produces. -/
def b64Encode : List Nat → String
  | [] => ""
  | [a] =>
      String.mk [b64Digit (a / 4), b64Digit (a % 4 * 16)] ++ "=="
  | [a, b] =>
      String.mk [b64Digit (a / 4), b64Digit (a % 4 * 16 + b / 16),
                 b64Digit (b % 16 * 4)] ++ "="
  | a :: b :: c :: rest =>
      String.mk [b64Digit (a / 4), b64Digit (a % 4 * 16 + b / 16),
                 b64Digit (b % 16 * 4 + c / 64), b64Digit (c % 64)] ++
      b64Encode rest

/-- Buffer.from(content).toString(base64): the UTF-8 bytes of the
string, base64 encoded. -/
def toBase64 (s : String) : String :=
  b64Encode (strBytes s)

/-- The 6-bit value of a base64 digit. -/
def b64Value (c : Char) : Nat :=
  (base64Alphabet.indexOf c)

/-- Base64 decoding to byte values, ignoring padding. -/
def b64DecodeBytes : List Char → List Nat
  | a :: b :: c :: d :: rest =>
      if c = '=' then
        [b64Value a * 4 + b64Value b / 16]
      else if d = '=' then
        [b64Value a * 4 + b64Value b / 16,
         b64Value b % 16 * 16 + b64Value c / 4]
      else
        [b64Value a * 4 + b64Value b / 16,
         b64Value b % 16 * 16 + b64Value c / 4,
         b64Value c % 4 * 64 + b64Value d] ++ b64DecodeBytes rest
  | _ => []

/-- Buffer.from(s, base64).toString(utf-8), modelled for ASCII
payloads: bytes below 128 decode to the corresponding character and any
other byte to the replacement character.  No claim inspects decoded
file content, so multi-byte sequences are not reassembled. -/
def fromBase64 (s : String) : String :=
  String.mk ((b64DecodeBytes s.toList).map (fun n =>
    if n < 128 then Char.ofNat n else Char.ofNat 65533))

/-- The argument bag of an invocation request (request.params.arguments):
an ordered JSON object. -/
abbrev Args := List (String × Json)

/-- A string argument: args.k as string.  Arguments arrive
schema-validated, so a non-string value is treated as absent. -/
def argS (args : Args) (k : String) : Option String :=
  match args.lookup k with
  | some (Json.str s) => some s
  | _ => none

/-- A number argument: args.k as number. -/
def argN (args : Args) (k : String) : Option Int :=
  match args.lookup k with
  | some (Json.num n) => some n
  | _ => none

/-- A boolean argument: args.k as boolean. -/
def argB (args : Args) (k : String) : Option Bool :=
  match args.lookup k with
  | some (Json.bool b) => some b
  | _ => none

/-- A string-array argument: args.k as string[]. -/
def argSL (args : Args) (k : String) : Option (List String) :=
  match args.lookup k with
  | some (Json.arr xs) =>
      some (xs.map (fun j => match j with | Json.str s => s | _ => ""))
  | _ => none

/-- The JavaScript default idiom x || d on a string: undefined and the
empty string are falsy. -/
def orFalsyS (x : Option String) (d : String) : String :=
  match x with
  | some v => if v = "" then d else v
  | none => d

/-- The JavaScript default idiom x || d on a number: undefined and zero
are falsy. -/
def orFalsyN (x : Option Int) (d : Int) : Int :=
  match x with
  | some v => if v = 0 then d else v
  | none => d

/-- JavaScript truthiness of an optional string (the test !fileSha of
the auto-fetch handlers): undefined and the empty string are falsy. -/
def truthyS (x : Option String) : Bool :=
  match x with
  | some v => v != ""
  | none => false

/-! Parameter records of the octokit endpoints used by the handlers.
Fields whose value can be undefined at a call site are Options. -/

/-- octokit.repos.listForAuthenticatedUser parameters. -/
structure ListReposParams where
  type : String
  sort : String
  per_page : Int
deriving Repr, DecidableEq, Inhabited

/-- octokit.repos.createForAuthenticatedUser parameters.  The source
field named private is a Lean keyword and is embedded as privateFlag. -/
structure CreateRepoParams where
  name : Option String
  description : Option String
  privateFlag : Option Bool
  auto_init : Option Bool
deriving Repr, DecidableEq, Inhabited

/-- octokit.repos.getContent parameters. -/
structure GetContentParams where
  owner : Option String
  repo : Option String
  path : Option String
  ref : Option String
deriving Repr, DecidableEq, Inhabited

/-- octokit.repos.createOrUpdateFileContents parameters. -/
structure WriteFileParams where
  owner : Option String
  repo : Option String
  path : Option String
  message : Option String
  content : String
  branch : Option String
  sha : Option String
deriving Repr, DecidableEq, Inhabited

/-- octokit.repos.deleteFile parameters. -/
structure DeleteFileParams where
  owner : Option String
  repo : Option String
  path : Option String
  message : Option String
  sha : Option String
  branch : Option String
deriving Repr, DecidableEq, Inhabited

/-- octokit.issues.listForRepo parameters. -/
structure ListIssuesParams where
  owner : Option String
  repo : Option String
  state : String
  per_page : Option Int
deriving Repr, DecidableEq, Inhabited

/-- octokit.issues.create parameters. -/
structure CreateIssueParams where
  owner : Option String
  repo : Option String
  title : Option String
  body : Option String
  labels : Option (List String)
deriving Repr, DecidableEq, Inhabited

/-- octokit.pulls.list parameters. -/
structure ListPullsParams where
  owner : Option String
  repo : Option String
  state : String
  per_page : Option Int
deriving Repr, DecidableEq, Inhabited

/-- octokit.pulls.create parameters. -/
structure CreatePullParams where
  owner : Option String
  repo : Option String
  title : Option String
  head : Option String
  base : Option String
  body : Option String
deriving Repr, DecidableEq, Inhabited

/-- octokit.repos.listCommits parameters. -/
structure ListCommitsParams where
  owner : Option String
  repo : Option String
  sha : Option String
  per_page : Int
deriving Repr, DecidableEq, Inhabited

/-- octokit.actions.listWorkflowRuns parameters. -/
structure WorkflowRunsParams where
  owner : Option String
  repo : Option String
  workflow_id : Option String
  per_page : Option Int
deriving Repr, DecidableEq, Inhabited

/-- octokit.actions.listWorkflowRunsForRepo parameters, covering both
variants (variant 2 adds workflow_id and status dynamically). -/
structure WorkflowRunsForRepoParams where
  owner : Option String
  repo : Option String
  per_page : Option Int
  workflow_id : Option Int
  status : Option String
deriving Repr, DecidableEq, Inhabited

/-- octokit.search.repos parameters. -/
structure SearchReposParams where
  q : Option String
  sort : Option String
  per_page : Int
deriving Repr, DecidableEq, Inhabited

/-- The upstream Octokit client, as the record of fallible operations
the handlers invoke.  Each operation either returns the JSON response
data or throws a JavaScript error; list endpoints whose data field is
consumed as an array still return a Json value so that the handlers own
reshaping stays explicit. -/
structure Octokit where
  reposListForAuthenticatedUser : ListReposParams → Except JsError Json
  reposGet : Option String → Option String → Except JsError Json
  reposCreateForAuthenticatedUser : CreateRepoParams → Except JsError Json
  reposListBranches : Option String → Option String → Except JsError Json
  reposGetContent : GetContentParams → Except JsError Json
  reposCreateOrUpdateFileContents : WriteFileParams → Except JsError Json
  reposDeleteFile : DeleteFileParams → Except JsError Json
  issuesListForRepo : ListIssuesParams → Except JsError Json
  issuesCreate : CreateIssueParams → Except JsError Json
  pullsList : ListPullsParams → Except JsError Json
  pullsCreate : CreatePullParams → Except JsError Json
  reposListCommits : ListCommitsParams → Except JsError Json
  actionsListRepoWorkflows : Option String → Option String → Except JsError Json
  actionsListWorkflowRuns : WorkflowRunsParams → Except JsError Json
  actionsListWorkflowRunsForRepo :
    WorkflowRunsForRepoParams → Except JsError Json
  usersGetAuthenticated : Unit → Except JsError Json
  searchRepos : SearchReposParams → Except JsError Json

/-- An upstream call, recorded by the instrumented file-writing
handlers so that claims about which upstream calls an invocation issues
are expressible. -/
inductive UpstreamCall where
  | getContent : GetContentParams → UpstreamCall
  | createOrUpdateFileContents : WriteFileParams → UpstreamCall
  | deleteFile : DeleteFileParams → UpstreamCall
deriving Repr, DecidableEq

/-- Whether a recorded upstream call is a file read. -/
def UpstreamCall.isRead : UpstreamCall → Bool
  | .getContent _ => true
  | _ => false

/-- Whether a recorded upstream call is a file delete. -/
def UpstreamCall.isDelete : UpstreamCall → Bool
  | .deleteFile _ => true
  | _ => false

/-- JavaScript Array.map applied to response data: reshapes each
element of an array value; a non-array response data faults. -/
def arrMapJs (f : Json → Json) : Json → Except JsError Json
  | Json.arr xs => Except.ok (Json.arr (xs.map f))
  | _ => Except.error { status := none, message := "data.map is not a function" }

/-- One content block of an invocation result (the only type produced
is text). -/
inductive ContentBlock where
  | text : String → ContentBlock
deriving Repr, DecidableEq

/-- An invocation result: content blocks plus the error flag.  A result
built without an isError field (every success path) carries the flag
false. -/
structure CallToolResult where
  content : List ContentBlock
  isError : Bool
deriving Repr, DecidableEq

namespace V1

/-! Variant 1 (src/index.ts): tool implementations, lines 239 to 404,
and the CallToolRequestSchema dispatcher, lines 424 to 519.  The
undefined argument bag (args or empty object) is modelled as the empty
list of fields. -/

/-- listRepositories, src/index.ts lines 239 to 254. -/
def listRepositories (ok : Octokit) (args : Args) : Except JsError Json := do
  let data ← ok.reposListForAuthenticatedUser
    { type := orFalsyS (argS args "type") "all",
      sort := orFalsyS (argS args "sort") "updated",
      per_page := orFalsyN (argN args "per_page") 30 }
  arrMapJs (fun repo => Json.obj
    [("name", jsField repo "name"),
     ("full_name", jsField repo "full_name"),
     ("description", jsField repo "description"),
     ("private", jsField repo "private"),
     ("html_url", jsField repo "html_url"),
     ("default_branch", jsField repo "default_branch"),
     ("updated_at", jsField repo "updated_at")]) data

/-- getRepository, src/index.ts lines 256 to 259: returns response.data
unreshaped. -/
def getRepository (ok : Octokit) (owner repo : Option String) :
    Except JsError Json :=
  ok.reposGet owner repo

/-- createRepository, src/index.ts lines 261 to 269. -/
def createRepository (ok : Octokit) (args : Args) : Except JsError Json :=
  ok.reposCreateForAuthenticatedUser
    { name := argS args "name",
      description := argS args "description",
      privateFlag := argB args "private",
      auto_init := argB args "auto_init" }

/-- listBranches, src/index.ts lines 271 to 274. -/
def listBranches (ok : Octokit) (owner repo : Option String) :
    Except JsError Json :=
  ok.reposListBranches owner repo

/-- getFileContents, src/index.ts lines 276 to 295: reshapes file
responses (those with truthy content) and passes anything else
through. -/
def getFileContents (ok : Octokit) (owner repo path ref : Option String) :
    Except JsError Json := do
  let data ← ok.reposGetContent { owner, repo, path, ref }
  match data.getField? "content" with
  | some c =>
      if jsTruthy c then
        Except.ok (Json.obj
          [("name", jsField data "name"),
           ("path", jsField data "path"),
           ("sha", jsField data "sha"),
           ("size", jsField data "size"),
           ("content", Json.str (fromBase64
             (match c with | Json.str s => s | _ => "")))])
      else Except.ok data
  | none => Except.ok data

/-- createOrUpdateFile, src/index.ts lines 297 to 308, instrumented
with the upstream call trace: the handler issues exactly one write,
forwarding the callers sha argument (possibly absent) and never
reading first. -/
def createOrUpdateFileT (ok : Octokit) (args : Args) :
    Except JsError Json × List UpstreamCall :=
  let p : WriteFileParams :=
    { owner := argS args "owner",
      repo := argS args "repo",
      path := argS args "path",
      message := argS args "message",
      content := toBase64 ((argS args "content").getD ""),
      branch := argS args "branch",
      sha := argS args "sha" }
  (ok.reposCreateOrUpdateFileContents p,
   [UpstreamCall.createOrUpdateFileContents p])

/-- createOrUpdateFile, result only. -/
def createOrUpdateFile (ok : Octokit) (args : Args) : Except JsError Json :=
  (createOrUpdateFileT ok args).1

/-- listIssues, src/index.ts lines 310 to 318. -/
def listIssues (ok : Octokit) (owner repo state : Option String)
    (per_page : Option Int) : Except JsError Json :=
  ok.issuesListForRepo
    { owner, repo,
      state := orFalsyS state "open",
      per_page := some (orFalsyN per_page 30) }

/-- createIssue, src/index.ts lines 320 to 329. -/
def createIssue (ok : Octokit) (args : Args) : Except JsError Json :=
  ok.issuesCreate
    { owner := argS args "owner",
      repo := argS args "repo",
      title := argS args "title",
      body := argS args "body",
      labels := argSL args "labels" }

/-- listPullRequests, src/index.ts lines 331 to 339. -/
def listPullRequests (ok : Octokit) (owner repo state : Option String)
    (per_page : Option Int) : Except JsError Json :=
  ok.pullsList
    { owner, repo,
      state := orFalsyS state "open",
      per_page := some (orFalsyN per_page 30) }

/-- createPullRequest, src/index.ts lines 341 to 351. -/
def createPullRequest (ok : Octokit) (args : Args) : Except JsError Json :=
  ok.pullsCreate
    { owner := argS args "owner",
      repo := argS args "repo",
      title := argS args "title",
      head := argS args "head",
      base := argS args "base",
      body := argS args "body" }

/-- listCommits, src/index.ts lines 353 to 366. -/
def listCommits (ok : Octokit) (owner repo sha : Option String)
    (per_page : Option Int) : Except JsError Json := do
  let data ← ok.reposListCommits
    { owner, repo, sha, per_page := orFalsyN per_page 30 }
  arrMapJs (fun commit => Json.obj
    [("sha", jsField commit "sha"),
     ("message", jsField (jsField commit "commit") "message"),
     ("author", jsField (jsField commit "commit") "author"),
     ("date", jsOptField (jsField (jsField commit "commit") "author")
       "date")]) data

/-- listWorkflows, src/index.ts lines 368 to 371. -/
def listWorkflows (ok : Octokit) (owner repo : Option String) :
    Except JsError Json := do
  let data ← ok.actionsListRepoWorkflows owner repo
  Except.ok (jsField data "workflows")

/-- listWorkflowRuns, src/index.ts lines 373 to 390: branches on the
truthiness of workflow_id. -/
def listWorkflowRuns (ok : Octokit) (owner repo workflow_id : Option String)
    (per_page : Option Int) : Except JsError Json :=
  if truthyS workflow_id then do
    let data ← ok.actionsListWorkflowRuns
      { owner, repo, workflow_id, per_page := some (orFalsyN per_page 10) }
    Except.ok (jsField data "workflow_runs")
  else do
    let data ← ok.actionsListWorkflowRunsForRepo
      { owner, repo, per_page := some (orFalsyN per_page 10),
        workflow_id := none, status := none }
    Except.ok (jsField data "workflow_runs")

/-- getAuthenticatedUser, src/index.ts lines 392 to 395. -/
def getAuthenticatedUser (ok : Octokit) : Except JsError Json :=
  ok.usersGetAuthenticated ()

/-- searchRepositories, src/index.ts lines 397 to 404. -/
def searchRepositories (ok : Octokit) (query sort : Option String)
    (per_page : Option Int) : Except JsError Json := do
  let data ← ok.searchRepos
    { q := query, sort, per_page := orFalsyN per_page 30 }
  Except.ok (jsField data "items")

/-- The registered tool names of variant 1: the names of the tools
array (src/index.ts lines 21 to 236), which coincide with the cases of
the dispatch switch. -/
def toolNames : List String :=
  ["list_repositories", "get_repository", "create_repository",
   "list_branches", "get_file_contents", "create_or_update_file",
   "list_issues", "create_issue", "list_pull_requests",
   "create_pull_request", "list_commits", "list_workflows",
   "list_workflow_runs", "get_authenticated_user", "search_repositories"]

/-- The body of the try block of the CallToolRequestSchema dispatcher,
src/index.ts lines 427 to 507: the switch over the tool name, with the
default case throwing the unknown tool error. -/
def dispatch (ok : Octokit) (name : String) (args : Args) :
    Except JsError Json :=
  match name with
  | "list_repositories" => listRepositories ok args
  | "get_repository" =>
      getRepository ok (argS args "owner") (argS args "repo")
  | "create_repository" => createRepository ok args
  | "list_branches" =>
      listBranches ok (argS args "owner") (argS args "repo")
  | "get_file_contents" =>
      getFileContents ok (argS args "owner") (argS args "repo")
        (argS args "path") (argS args "ref")
  | "create_or_update_file" => createOrUpdateFile ok args
  | "list_issues" =>
      listIssues ok (argS args "owner") (argS args "repo")
        (argS args "state") (argN args "per_page")
  | "create_issue" => createIssue ok args
  | "list_pull_requests" =>
      listPullRequests ok (argS args "owner") (argS args "repo")
        (argS args "state") (argN args "per_page")
  | "create_pull_request" => createPullRequest ok args
  | "list_commits" =>
      listCommits ok (argS args "owner") (argS args "repo")
        (argS args "sha") (argN args "per_page")
  | "list_workflows" =>
      listWorkflows ok (argS args "owner") (argS args "repo")
  | "list_workflow_runs" =>
      listWorkflowRuns ok (argS args "owner") (argS args "repo")
        (argS args "workflow_id") (argN args "per_page")
  | "get_authenticated_user" => getAuthenticatedUser ok
  | "search_repositories" =>
      searchRepositories ok (argS args "query") (argS args "sort")
        (argN args "per_page")
  | _ => Except.error { status := none, message := "Unknown tool: " ++ name }

/-- The CallToolRequestSchema handler, src/index.ts lines 424 to 519:
runs the switch inside try and converts any thrown error into an
error-flagged single-text-block result rendering the failure (thrown
values are Error objects, so the catch reads error.message). -/
def handleCallTool (ok : Octokit) (name : String) (args : Args) :
    CallToolResult :=
  match dispatch ok name args with
  | Except.ok result =>
      { content := [ContentBlock.text (jsonStringify result)],
        isError := false }
  | Except.error e =>
      { content := [ContentBlock.text ("Error: " ++ e.message)],
        isError := true }

end V1

/-- JavaScript string coercion, used where variant 2 assigns a fetched
JSON field into the string-typed sha variable (the field is a string in
every octokit response). -/
def jsCoerceString (j : Json) : String :=
  match j with
  | Json.str s => s
  | Json.num n => toString n
  | Json.bool true => "true"
  | Json.bool false => "false"
  | Json.null => "null"
  | Json.arr _ => ""
  | Json.obj _ => "[object Object]"

/-- The template rendering of a thrown error (the string
interpolation of error in variant 2 catch blocks): octokit request
errors are HttpError instances and stringify as HttpError: message,
plain errors as Error: message. -/
def jsErrorString (e : JsError) : String :=
  (match e.status with
   | some _ => "HttpError"
   | none => "Error") ++ ": " ++ e.message

namespace V2

/-! Variant 2 (the v1.1.0 implementation embedded in README.md): the
two auto-fetch file tools, instrumented with their upstream call
trace, and the session table endpoints. -/

/-- Arguments of the variant 2 create_or_update_file tool
(zod-validated: required strings, optional branch and sha). -/
structure WriteArgs where
  owner : String
  repo : String
  path : String
  message : String
  content : String
  branch : Option String
  sha : Option String
deriving Repr, DecidableEq, Inhabited

/-- Arguments of the variant 2 delete_file tool. -/
structure DeleteArgs where
  owner : String
  repo : String
  path : String
  message : String
  branch : Option String
  sha : Option String
deriving Repr, DecidableEq, Inhabited

/-- The create_or_update_file handler, README lines 157 to 196, with
its upstream call trace.  When the sha argument is falsy the handler
first reads the file (octokit.repos.getContent) inside an inner try: a
present sha field of the response becomes the precondition token, a 404
read failure falls through to a pure create, and any other read failure
is rethrown into the outer catch.  The write is then issued with the
resolved token and either outcome is framed by the outer
try/catch. -/
def createOrUpdateFileT (ok : Octokit) (a : WriteArgs) :
    CallToolResult × List UpstreamCall :=
  let readP : GetContentParams :=
    { owner := some a.owner, repo := some a.repo, path := some a.path,
      ref := a.branch }
  let writeWith := fun (fileSha : Option String)
      (trace : List UpstreamCall) =>
    let p : WriteFileParams :=
      { owner := some a.owner, repo := some a.repo, path := some a.path,
        message := some a.message, content := toBase64 a.content,
        branch := a.branch, sha := fileSha }
    match ok.reposCreateOrUpdateFileContents p with
    | Except.ok data =>
        ({ content := [ContentBlock.text (jsonStringify data)],
           isError := false },
         trace ++ [UpstreamCall.createOrUpdateFileContents p])
    | Except.error e =>
        ({ content := [ContentBlock.text ("Error: " ++ jsErrorString e)],
           isError := true },
         trace ++ [UpstreamCall.createOrUpdateFileContents p])
  if truthyS a.sha then
    writeWith a.sha []
  else
    match ok.reposGetContent readP with
    | Except.ok existingFile =>
        (match existingFile.getField? "sha" with
         | some v =>
             writeWith (some (jsCoerceString v))
               [UpstreamCall.getContent readP]
         | none => writeWith a.sha [UpstreamCall.getContent readP])
    | Except.error e =>
        if e.status = some 404 then
          writeWith a.sha [UpstreamCall.getContent readP]
        else
          ({ content := [ContentBlock.text ("Error: " ++ jsErrorString e)],
             isError := true },
           [UpstreamCall.getContent readP])

/-- The delete_file handler, README lines 199 to 227, with its
upstream call trace.  When the sha argument is falsy the handler reads
the file with no inner try: a read failure propagates to the outer
catch, and a response without a sha field returns the explicit token
error; in both cases no delete is issued. -/
def deleteFileT (ok : Octokit) (a : DeleteArgs) :
    CallToolResult × List UpstreamCall :=
  let readP : GetContentParams :=
    { owner := some a.owner, repo := some a.repo, path := some a.path,
      ref := a.branch }
  let delWith := fun (fileSha : Option String)
      (trace : List UpstreamCall) =>
    let p : DeleteFileParams :=
      { owner := some a.owner, repo := some a.repo, path := some a.path,
        message := some a.message, sha := fileSha, branch := a.branch }
    match ok.reposDeleteFile p with
    | Except.ok data =>
        ({ content := [ContentBlock.text (jsonStringify data)],
           isError := false },
         trace ++ [UpstreamCall.deleteFile p])
    | Except.error e =>
        ({ content := [ContentBlock.text ("Error: " ++ jsErrorString e)],
           isError := true },
         trace ++ [UpstreamCall.deleteFile p])
  if truthyS a.sha then
    delWith a.sha []
  else
    match ok.reposGetContent readP with
    | Except.ok existingFile =>
        (match existingFile.getField? "sha" with
         | some v =>
             delWith (some (jsCoerceString v))
               [UpstreamCall.getContent readP]
         | none =>
             ({ content := [ContentBlock.text
                  "Error: Could not get file SHA"],
                isError := true },
              [UpstreamCall.getContent readP]))
    | Except.error e =>
        ({ content := [ContentBlock.text ("Error: " ++ jsErrorString e)],
           isError := true },
         [UpstreamCall.getContent readP])

end V2

/-- An SSE transport: the session identifier the SSEServerTransport
announces to the client in its first stream event, and the frames
pushed on its outbound stream so far. -/
structure Transport where
  announcedId : String
  streamOut : List String
deriving Repr, DecidableEq, Inhabited

/-- The session table: an insertion-ordered association from session
identifier to transport, mirroring the transports Map of variant 1 and
the transports record of variant 2. -/
abbrev SessionTable := List (String × Transport)

/-- Map lookup (transports.get and transports[sessionId]). -/
def mapGet (m : SessionTable) (k : String) : Option Transport :=
  match m with
  | [] => none
  | p :: rest => if p.1 = k then some p.2 else mapGet rest k

/-- Map insertion (transports.set and record assignment): replaces the
binding of an existing key in place and appends a new key at the
end. -/
def mapSet (m : SessionTable) (k : String) (v : Transport) : SessionTable :=
  match m with
  | [] => [(k, v)]
  | p :: rest => if p.1 = k then (k, v) :: rest else p :: mapSet rest k v

/-- Map deletion (transports.delete and the delete operator).  A real
Map holds at most one binding per key; this model removes every binding
of the key, which coincides on the reachable (duplicate-free)
tables. -/
def mapDelete (m : SessionTable) (k : String) : SessionTable :=
  match m with
  | [] => []
  | p :: rest => if p.1 = k then mapDelete rest k else p :: mapDelete rest k

/-- The identifiers of the live sessions. -/
def tableKeys (m : SessionTable) : List String :=
  m.map Prod.fst

/-- An HTTP response: status code and JSON body. -/
structure HttpResponse where
  status : Nat
  body : Json
deriving Inhabited

/-- Modelled from the spec: SSEServerTransport.handlePostMessage is SDK
code outside src.  Per the spec (sections 2, 4.2 and 6) it parses the
POSTed protocol request, has the sessions MCP server produce the
invocation result, pushes the framed result on this transports own
outbound SSE stream, and answers the POST itself with a bare
acknowledgement of receipt. -/
def Transport.handlePostMessage (t : Transport) (frame : String) :
    HttpResponse × Transport :=
  ({ status := 202, body := Json.str "Accepted" },
   { t with streamOut := t.streamOut ++ [frame] })

namespace V1

/-- The GET /sse handler, src/index.ts lines 540 to 553: stores the
new transport under a freshly generated local random string (the value
of Math.random().toString(36).substring(7), supplied here as the
localId parameter), not under the identifier the transport itself
announces. -/
def sseConnect (st : SessionTable) (localId : String) (t : Transport) :
    SessionTable :=
  mapSet st localId t

/-- The POST /message handler, src/index.ts lines 555 to 564: an
unknown sessionId answers 400 with the No active session error body and
touches no session. -/
def postMessage (st : SessionTable) (sid : String) (frame : String) :
    HttpResponse × SessionTable :=
  match mapGet st sid with
  | some t =>
      let r := t.handlePostMessage frame
      (r.1, mapSet st sid r.2)
  | none =>
      ({ status := 400,
         body := Json.obj [("error", Json.str "No active session")] }, st)

/-- The res.on(close) handler, src/index.ts lines 547 to 550. -/
def closeSession (st : SessionTable) (sid : String) : SessionTable :=
  mapDelete st sid

end V1

namespace V2

/-- The GET /sse handler, README lines 377 to 405: stores the new
transport under the identifier the transport itself announces. -/
def sseConnect (st : SessionTable) (t : Transport) : SessionTable :=
  mapSet st t.announcedId t

/-- The POST /message handler, README lines 407 to 427: an unknown
sessionId answers 404 with the Session not found error body and touches
no session. -/
def postMessage (st : SessionTable) (sid : String) (frame : String) :
    HttpResponse × SessionTable :=
  match mapGet st sid with
  | some t =>
      let r := t.handlePostMessage frame
      (r.1, mapSet st sid r.2)
  | none =>
      ({ status := 404,
         body := Json.obj [("error", Json.str "Session not found")] }, st)

/-- The res.on(close) handler, README lines 397 to 401: clears the
keep-alive interval (see the keep-alive machine below) and deletes the
session. -/
def closeSession (st : SessionTable) (sid : String) : SessionTable :=
  mapDelete st sid

end V2

/-- The keep-alive heartbeat frame of variant 2 (an SSE comment frame:
it starts with a colon). -/
def heartbeatFrame : String := ": keepalive\n\n"

/-- The keep-alive period of variant 2, in milliseconds (the
setInterval period, README line 395). -/
def keepAliveIntervalMs : Nat := 10000

/-- The keep-alive and stream state of one variant 2 SSE connection:
whether the interval timer is still scheduled, whether the close event
has fired, and the frames written so far. -/
structure KeepAliveState where
  timerActive : Bool
  closed : Bool
  written : List String
deriving Repr, DecidableEq, Inhabited

/-- Events acting on one connection: a timer tick carrying the outcome
of the attempted res.write (false when the write throws), and the close
notification. -/
inductive KAEvent where
  | tick : Bool → KAEvent
  | close : KAEvent
deriving Repr, DecidableEq

/-- One step of the keep-alive machine (README lines 389 to 401): a
tick with the timer scheduled attempts the write inside try, and a
throwing write clears the interval in the catch instead of
propagating; the close handler clears the interval. -/
def kaStep (s : KeepAliveState) : KAEvent → KeepAliveState
  | .tick ok =>
      if s.timerActive then
        if ok then { s with written := s.written ++ [heartbeatFrame] }
        else { s with timerActive := false }
      else s
  | .close => { s with timerActive := false, closed := true }

/-- Running the keep-alive machine over an event sequence. -/
def kaRun (s : KeepAliveState) (evs : List KAEvent) : KeepAliveState :=
  evs.foldl kaStep s

/-- The state right after a variant 2 connection opens: the interval is
scheduled and nothing has been written. -/
def kaInit : KeepAliveState :=
  { timerActive := true, closed := false, written := [] }

/-- The state right after a variant 1 connection opens: the GET /sse
handler of src/index.ts lines 540 to 553 contains no setInterval and
no heartbeat write at all, so the connection opens with no timer
scheduled and the elapse of heartbeat intervals writes nothing. -/
def kaInitV1 : KeepAliveState :=
  { timerActive := false, closed := false, written := [] }

/-- An event of the variant 2 HTTP front door acting on the session
table: a new SSE connection, a stream close notification, or a POST
/message carrying a session identifier and the frame its invocation
result would push. -/
inductive SrvEvent where
  | connect : Transport → SrvEvent
  | close : String → SrvEvent
  | post : String → String → SrvEvent
deriving Repr, DecidableEq

/-- An event of the variant 1 front door: connect additionally carries
the locally generated random key. -/
inductive SrvEventV1 where
  | connect : String → Transport → SrvEventV1
  | close : String → SrvEventV1
  | post : String → String → SrvEventV1
deriving Repr, DecidableEq

namespace V2

/-- One variant 2 front-door step on the session table. -/
def step (st : SessionTable) : SrvEvent → SessionTable
  | .connect t => sseConnect st t
  | .close sid => closeSession st sid
  | .post sid frame => (postMessage st sid frame).2

/-- The variant 2 session table reached from startup (empty table)
under an event sequence. -/
def run (evs : List SrvEvent) : SessionTable :=
  evs.foldl step []

end V2

namespace V1

/-- One variant 1 front-door step on the session table. -/
def step (st : SessionTable) : SrvEventV1 → SessionTable
  | .connect localId t => sseConnect st localId t
  | .close sid => closeSession st sid
  | .post sid frame => (postMessage st sid frame).2

/-- The variant 1 session table reached from startup (empty table)
under an event sequence. -/
def run (evs : List SrvEventV1) : SessionTable :=
  evs.foldl step []

end V1

/-- An upstream client every operation of which throws the given error
(a network fault, a bad credential, a rate limit): exercises the
dispatcher error boundary uniformly across the registry. -/
def failingOctokit (e : JsError) : Octokit where
  reposListForAuthenticatedUser := fun _ => Except.error e
  reposGet := fun _ _ => Except.error e
  reposCreateForAuthenticatedUser := fun _ => Except.error e
  reposListBranches := fun _ _ => Except.error e
  reposGetContent := fun _ => Except.error e
  reposCreateOrUpdateFileContents := fun _ => Except.error e
  reposDeleteFile := fun _ => Except.error e
  issuesListForRepo := fun _ => Except.error e
  issuesCreate := fun _ => Except.error e
  pullsList := fun _ => Except.error e
  pullsCreate := fun _ => Except.error e
  reposListCommits := fun _ => Except.error e
  actionsListRepoWorkflows := fun _ _ => Except.error e
  actionsListWorkflowRuns := fun _ => Except.error e
  actionsListWorkflowRunsForRepo := fun _ => Except.error e
  usersGetAuthenticated := fun _ => Except.error e
  searchRepos := fun _ => Except.error e

/-- The fixed JSON object a stub upstream returns for the acme/widgets
repository. -/
def widgetsRepoJson : Json :=
  Json.obj
    [("full_name", Json.str "acme/widgets"),
     ("private", Json.bool false),
     ("stargazers_count", Json.num 80)]

/-- A stub upstream whose repository read returns the fixed
acme/widgets object and whose every other operation is unreachable. -/
def repoStubOctokit : Octokit :=
  { failingOctokit { status := none, message := "unreachable" } with
    reposGet := fun _ _ => Except.ok widgetsRepoJson }

/-- The content response for an existing file carrying the sha
abc123. -/
def existingFileJson : Json :=
  Json.obj
    [("name", Json.str "notes.txt"),
     ("path", Json.str "notes.txt"),
     ("sha", Json.str "abc123"),
     ("size", Json.num 5),
     ("content", Json.str "aGVsbG8=")]

/-- A stub upstream for which the file exists (reads return
existingFileJson) and writes succeed. -/
def existingFileOctokit : Octokit :=
  { failingOctokit { status := none, message := "unreachable" } with
    reposGetContent := fun _ => Except.ok existingFileJson,
    reposCreateOrUpdateFileContents := fun _ =>
      Except.ok (Json.obj [("commit", Json.obj [("sha", Json.str "c0ffee")])]),
    reposDeleteFile := fun _ =>
      Except.ok (Json.obj [("commit", Json.obj [("sha", Json.str "dead00")])]) }

/-- A stub upstream for which the file does not exist (reads throw the
404 not-found error) but writes succeed. -/
def missingFileOctokit : Octokit :=
  { failingOctokit { status := some 404, message := "Not Found" } with
    reposCreateOrUpdateFileContents := fun _ =>
      Except.ok (Json.obj [("commit", Json.obj [("sha", Json.str "0ddba11")])]) }

/-- The invocation arguments of the variant 1 file-update tool for a
write without a precondition token. -/
def v1WriteArgsNoSha : Args :=
  [("owner", Json.str "acme"), ("repo", Json.str "widgets"),
   ("path", Json.str "notes.txt"), ("message", Json.str "update"),
   ("content", Json.str "hello")]

/-- Variant 2 file-update arguments without a precondition token. -/
def v2WriteArgsNoSha : V2.WriteArgs :=
  { owner := "acme", repo := "widgets", path := "notes.txt",
    message := "update", content := "hello", branch := none, sha := none }

/-- Variant 2 file-delete arguments without a precondition token. -/
def v2DeleteArgsNoSha : V2.DeleteArgs :=
  { owner := "acme", repo := "widgets", path := "notes.txt",
    message := "remove", branch := none, sha := none }

/-! Lemmas about the session table. -/

theorem mapGet_mapSet_self (m : SessionTable) (k : String) (v : Transport) :
    mapGet (mapSet m k v) k = some v := by
  induction m with
  | nil => simp [mapSet, mapGet]
  | cons p rest ih =>
      by_cases h : p.1 = k
      · simp [mapSet, mapGet, h]
      · simp [mapSet, mapGet, h, ih]

theorem mapGet_mapSet_ne (m : SessionTable) (k k2 : String) (v : Transport)
    (h : k2 ≠ k) : mapGet (mapSet m k v) k2 = mapGet m k2 := by
  induction m with
  | nil => simp [mapSet, mapGet, Ne.symm h]
  | cons p rest ih =>
      by_cases hp : p.1 = k
      · simp [mapSet, mapGet, hp, Ne.symm h, h]
      · by_cases hq : p.1 = k2
        · simp [mapSet, mapGet, hp, hq, Ne.symm h, h]
        · simp [mapSet, mapGet, hp, hq, ih]

theorem mapGet_mapDelete_self (m : SessionTable) (k : String) :
    mapGet (mapDelete m k) k = none := by
  induction m with
  | nil => simp [mapDelete, mapGet]
  | cons p rest ih =>
      by_cases h : p.1 = k
      · simpa [mapDelete, mapGet, h] using ih
      · simpa [mapDelete, mapGet, h] using ih

theorem mapGet_mapDelete_ne (m : SessionTable) (k k2 : String)
    (h : k2 ≠ k) : mapGet (mapDelete m k) k2 = mapGet m k2 := by
  induction m with
  | nil => simp [mapDelete, mapGet]
  | cons p rest ih =>
      by_cases hp : p.1 = k
      · simp [mapDelete, mapGet, hp, Ne.symm h, h, ih]
      · by_cases hq : p.1 = k2
        · simp [mapDelete, mapGet, hp, hq, h]
        · simp [mapDelete, mapGet, hp, hq, ih]

theorem mapDelete_idem (m : SessionTable) (k : String) :
    mapDelete (mapDelete m k) k = mapDelete m k := by
  induction m with
  | nil => simp [mapDelete]
  | cons p rest ih =>
      by_cases h : p.1 = k
      · simpa [mapDelete, h] using ih
      · simpa [mapDelete, h] using ih

theorem mem_tableKeys_mapSet (m : SessionTable) (k a : String)
    (v : Transport) :
    a ∈ tableKeys (mapSet m k v) ↔ a = k ∨ a ∈ tableKeys m := by
  induction m with
  | nil => simp [mapSet, tableKeys]
  | cons p rest ih =>
      by_cases h : p.1 = k
      · simp only [mapSet, if_pos h, tableKeys, List.map_cons,
          List.mem_cons] at ih ⊢
        rw [h]
        tauto
      · simp only [mapSet, if_neg h, tableKeys, List.map_cons,
          List.mem_cons] at ih ⊢
        rw [ih]
        tauto

theorem mem_tableKeys_mapDelete (m : SessionTable) (k a : String) :
    a ∈ tableKeys (mapDelete m k) → a ∈ tableKeys m := by
  induction m with
  | nil => simp [mapDelete, tableKeys]
  | cons p rest ih =>
      by_cases h : p.1 = k
      · simp only [mapDelete, if_pos h, tableKeys, List.map_cons,
          List.mem_cons] at ih ⊢
        intro hx
        exact Or.inr (ih hx)
      · simp only [mapDelete, if_neg h, tableKeys, List.map_cons,
          List.mem_cons] at ih ⊢
        rintro (hx | hx)
        · exact Or.inl hx
        · exact Or.inr (ih hx)

theorem nodupKeys_mapSet (m : SessionTable) (k : String) (v : Transport)
    (h : (tableKeys m).Nodup) : (tableKeys (mapSet m k v)).Nodup := by
  induction m with
  | nil => simp [mapSet, tableKeys]
  | cons p rest ih =>
      rw [tableKeys, List.map_cons, List.nodup_cons] at h
      by_cases hp : p.1 = k
      · simp only [mapSet, if_pos hp, tableKeys, List.map_cons,
          List.nodup_cons]
        exact ⟨hp ▸ h.1, h.2⟩
      · simp only [mapSet, if_neg hp, tableKeys, List.map_cons,
          List.nodup_cons]
        refine ⟨?_, ih h.2⟩
        intro hmem
        rcases (mem_tableKeys_mapSet rest k p.1 v).mp hmem with h1 | h1
        · exact hp h1
        · exact h.1 h1

theorem nodupKeys_mapDelete (m : SessionTable) (k : String)
    (h : (tableKeys m).Nodup) : (tableKeys (mapDelete m k)).Nodup := by
  induction m with
  | nil => simp [mapDelete, tableKeys]
  | cons p rest ih =>
      rw [tableKeys, List.map_cons, List.nodup_cons] at h
      by_cases hp : p.1 = k
      · simpa only [mapDelete, if_pos hp] using ih h.2
      · simp only [mapDelete, if_neg hp, tableKeys, List.map_cons,
          List.nodup_cons]
        exact ⟨fun hmem => h.1 (mem_tableKeys_mapDelete rest k p.1 hmem),
               ih h.2⟩

/-! Lemmas about the keep-alive machine. -/

theorem kaRun_inactive (evs : List KAEvent) (s : KeepAliveState)
    (h : s.timerActive = false) :
    (kaRun s evs).written = s.written ∧ (kaRun s evs).timerActive = false := by
  induction evs generalizing s with
  | nil => exact ⟨rfl, h⟩
  | cons e rest ih =>
      have h2 : (kaStep s e).timerActive = false := by
        cases e <;> simp [kaStep, h]
      have h3 : (kaStep s e).written = s.written := by
        cases e <;> simp [kaStep, h]
      have hrec := ih (kaStep s e) h2
      exact ⟨by rw [kaRun, List.foldl_cons, ← kaRun, hrec.1, h3], by
        rw [kaRun, List.foldl_cons, ← kaRun]; exact hrec.2⟩

theorem kaRun_ticks (n : Nat) (s : KeepAliveState)
    (h : s.timerActive = true) :
    (kaRun s (List.replicate n (KAEvent.tick true))).written =
      s.written ++ List.replicate n heartbeatFrame ∧
    (kaRun s (List.replicate n (KAEvent.tick true))).timerActive = true := by
  induction n generalizing s with
  | zero => simp [kaRun, h]
  | succ n ih =>
      have hstep : kaStep s (KAEvent.tick true) =
          { s with written := s.written ++ [heartbeatFrame] } := by
        simp [kaStep, h]
      have hrec := ih { s with written := s.written ++ [heartbeatFrame] }
        (by simpa using h)
      simp only [List.replicate_succ, kaRun, List.foldl_cons, hstep]
      simp only [kaRun] at hrec
      refine ⟨?_, hrec.2⟩
      rw [hrec.1]
      simp

/-! Lemmas about the front-door machines. -/

theorem postMessageV2_other (st : SessionTable) (sid sid2 frame : String)
    (h : sid2 ≠ sid) :
    mapGet ((V2.postMessage st sid frame).2) sid2 = mapGet st sid2 := by
  simp only [V2.postMessage]
  cases hm : mapGet st sid with
  | none => simp [hm]
  | some t => simp [hm, Transport.handlePostMessage,
      mapGet_mapSet_ne st sid sid2 _ h]

theorem postMessageV1_other (st : SessionTable) (sid sid2 frame : String)
    (h : sid2 ≠ sid) :
    mapGet ((V1.postMessage st sid frame).2) sid2 = mapGet st sid2 := by
  simp only [V1.postMessage]
  cases hm : mapGet st sid with
  | none => simp [hm]
  | some t => simp [hm, Transport.handlePostMessage,
      mapGet_mapSet_ne st sid sid2 _ h]

theorem postMessageV2_hit (st : SessionTable) (sid frame : String)
    (t : Transport) (h : mapGet st sid = some t) :
    mapGet ((V2.postMessage st sid frame).2) sid =
      some { t with streamOut := t.streamOut ++ [frame] } := by
  simp only [V2.postMessage, h, Transport.handlePostMessage]
  exact mapGet_mapSet_self ..

theorem postMessageV1_hit (st : SessionTable) (sid frame : String)
    (t : Transport) (h : mapGet st sid = some t) :
    mapGet ((V1.postMessage st sid frame).2) sid =
      some { t with streamOut := t.streamOut ++ [frame] } := by
  simp only [V1.postMessage, h, Transport.handlePostMessage]
  exact mapGet_mapSet_self ..

theorem nodupKeys_stepV2 (st : SessionTable) (e : SrvEvent)
    (h : (tableKeys st).Nodup) : (tableKeys (V2.step st e)).Nodup := by
  cases e with
  | connect t => exact nodupKeys_mapSet _ _ _ h
  | close sid => exact nodupKeys_mapDelete _ _ h
  | post sid frame =>
      simp only [V2.step, V2.postMessage]
      cases hm : mapGet st sid with
      | none => simpa [hm] using h
      | some t =>
          simp only [hm]
          exact nodupKeys_mapSet _ _ _ h

theorem nodupKeys_stepV1 (st : SessionTable) (e : SrvEventV1)
    (h : (tableKeys st).Nodup) : (tableKeys (V1.step st e)).Nodup := by
  cases e with
  | connect localId t => exact nodupKeys_mapSet _ _ _ h
  | close sid => exact nodupKeys_mapDelete _ _ h
  | post sid frame =>
      simp only [V1.step, V1.postMessage]
      cases hm : mapGet st sid with
      | none => simpa [hm] using h
      | some t =>
          simp only [hm]
          exact nodupKeys_mapSet _ _ _ h

theorem nodupKeys_runV2 (evs : List SrvEvent) :
    (tableKeys (V2.run evs)).Nodup := by
  have key : ∀ (l : List SrvEvent) (st : SessionTable),
      (tableKeys st).Nodup → (tableKeys (l.foldl V2.step st)).Nodup := by
    intro l
    induction l with
    | nil => intro st h; simpa using h
    | cons e rest ih => intro st h; exact ih _ (nodupKeys_stepV2 st e h)
  simpa [V2.run] using key evs [] (by simp [tableKeys])

theorem nodupKeys_runV1 (evs : List SrvEventV1) :
    (tableKeys (V1.run evs)).Nodup := by
  have key : ∀ (l : List SrvEventV1) (st : SessionTable),
      (tableKeys st).Nodup → (tableKeys (l.foldl V1.step st)).Nodup := by
    intro l
    induction l with
    | nil => intro st h; simpa using h
    | cons e rest ih => intro st h; exact ih _ (nodupKeys_stepV1 st e h)
  simpa [V1.run] using key evs [] (by simp [tableKeys])

/-- The default case of the dispatch switch: a name outside the
registry yields the thrown unknown-tool error. -/
theorem dispatch_unknown (ok : Octokit) (args : Args) (name : String)
    (h : name ∉ V1.toolNames) :
    V1.dispatch ok name args =
      Except.error { status := none, message := "Unknown tool: " ++ name } := by
  unfold V1.dispatch
  split <;> first
    | rfl
    | (exact absurd (by decide) h)

/-- Both branches of the listWorkflowRuns handler propagate a throwing
upstream. -/
theorem listWorkflowRuns_failing (e : JsError) (o r w : Option String)
    (pp : Option Int) :
    V1.listWorkflowRuns (failingOctokit e) o r w pp = Except.error e := by
  unfold V1.listWorkflowRuns
  by_cases hb : truthyS w = true
  · rw [if_pos hb]; rfl
  · rw [if_neg hb]; rfl

/-- Claim C1: for every invocation of a registered tool, if the tool
handler raises any exception (including upstream HTTP or network
failures), the dispatcher catch converts it into an error-flagged
result whose single text content block renders the failure, and the
dispatcher (a total function here) never lets the fault escape.  The
first conjunct is the catch boundary itself; the second exercises it
across every registered tool against an upstream whose every operation
throws. -/
theorem claim_c1_handler_faults_contained :
    (∀ (ok : Octokit) (name : String) (args : Args) (e : JsError),
        V1.dispatch ok name args = Except.error e →
        V1.handleCallTool ok name args =
          { content := [ContentBlock.text ("Error: " ++ e.message)],
            isError := true }) ∧
    (∀ (e : JsError) (name : String) (args : Args),
        name ∈ V1.toolNames →
        V1.handleCallTool (failingOctokit e) name args =
          { content := [ContentBlock.text ("Error: " ++ e.message)],
            isError := true }) := by
  constructor
  · intro ok name args e h
    unfold V1.handleCallTool
    rw [h]
  · intro e name args h
    simp only [V1.toolNames] at h
    fin_cases h <;> first
      | rfl
      | (unfold V1.handleCallTool V1.dispatch
         rw [listWorkflowRuns_failing]
         rfl)

/-- Witness for C1: a network fault thrown by the get_repository
handler surfaces as the error-flagged rendered result. -/
theorem claim_c1_witness :
    V1.handleCallTool
        (failingOctokit { status := none, message := "network timeout" })
        "get_repository" [] =
      { content := [ContentBlock.text "Error: network timeout"],
        isError := true } := by
  have h := claim_c1_handler_faults_contained.2
    { status := none, message := "network timeout" } "get_repository" []
    (by decide)
  exact h

/-- Claim C4: an invocation naming a tool outside the registry yields
an error-flagged result whose text carries the literal unresolved name,
as an ordinary protocol result. -/
theorem claim_c4_unknown_tool (ok : Octokit) (args : Args) (name : String)
    (h : name ∉ V1.toolNames) :
    V1.handleCallTool ok name args =
      { content := [ContentBlock.text ("Error: Unknown tool: " ++ name)],
        isError := true } ∧
    ∃ pre, ("Error: Unknown tool: " ++ name) = pre ++ name := by
  refine ⟨?_, ⟨"Error: Unknown tool: ", rfl⟩⟩
  unfold V1.handleCallTool
  rw [dispatch_unknown ok args name h]
  rfl

/-- Witness for C4 at the concrete unregistered name frobnicate. -/
theorem claim_c4_witness :
    "frobnicate" ∉ V1.toolNames ∧
    V1.handleCallTool (failingOctokit { status := none, message := "unused" })
        "frobnicate" [] =
      { content := [ContentBlock.text "Error: Unknown tool: frobnicate"],
        isError := true } := by
  refine ⟨by decide, ?_⟩
  exact (claim_c4_unknown_tool
    (failingOctokit { status := none, message := "unused" }) []
    "frobnicate" (by decide)).1

/-- Claim C9: a successful get_repository invocation against an
upstream returning a fixed JSON object yields a result whose single
text content block is exactly that object serialized by the stable
field-order serializer jsonStringify (the model of
JSON.stringify(result, null, 2)). -/
theorem claim_c9_get_repository_result (ok : Octokit) (args : Args)
    (j : Json)
    (h : ok.reposGet (argS args "owner") (argS args "repo") = Except.ok j) :
    V1.handleCallTool ok "get_repository" args =
      { content := [ContentBlock.text (jsonStringify j)],
        isError := false } := by
  have hd : V1.dispatch ok "get_repository" args = Except.ok j := by
    show V1.getRepository ok (argS args "owner") (argS args "repo") =
      Except.ok j
    exact h
  unfold V1.handleCallTool
  rw [hd]

/-- Witness for C9: against the acme/widgets stub upstream the pushed
text is the byte-for-byte two-space-indented serialization with the
fields in upstream order. -/
theorem claim_c9_witness :
    V1.handleCallTool repoStubOctokit "get_repository"
        [("owner", Json.str "acme"), ("repo", Json.str "widgets")] =
      { content := [ContentBlock.text (jsonStringify widgetsRepoJson)],
        isError := false } ∧
    jsonStringify widgetsRepoJson =
      "\x7b\n  \"full_name\": \"acme/widgets\",\n  \"private\": false,\n  \"stargazers_count\": 80\n\x7d" := by
  constructor
  · exact claim_c9_get_repository_result repoStubOctokit
      [("owner", Json.str "acme"), ("repo", Json.str "widgets")]
      widgetsRepoJson rfl
  · simp only [widgetsRepoJson, jsonStringify, renderJson, renderObj,
      jsonQuote, jsonEscape, jsonEscapeChar, indentStr]
    decide

/-- Claim C3: a POST /message whose sessionId matches no live session
is answered with an HTTP 4xx status and a JSON body carrying an error
field (400 No active session in variant 1, 404 Session not found in
variant 2), and the session table is returned unchanged. -/
theorem claim_c3_unknown_session (st : SessionTable) (sid frame : String)
    (h : mapGet st sid = none) :
    V1.postMessage st sid frame =
      ({ status := 400,
         body := Json.obj [("error", Json.str "No active session")] }, st) ∧
    V2.postMessage st sid frame =
      ({ status := 404,
         body := Json.obj [("error", Json.str "Session not found")] }, st) ∧
    400 / 100 = 4 ∧ 404 / 100 = 4 ∧
    ((Json.obj [("error", Json.str "No active session")]).getField?
      "error").isSome = true ∧
    ((Json.obj [("error", Json.str "Session not found")]).getField?
      "error").isSome = true := by
  refine ⟨?_, ?_, by norm_num, by norm_num, rfl, rfl⟩
  · unfold V1.postMessage
    rw [h]
  · unfold V2.postMessage
    rw [h]

/-- Witness for C3 on the empty session table. -/
theorem claim_c3_witness :
    (V1.postMessage [] "gone" "f").1.status = 400 ∧
    (V2.postMessage [] "gone" "f").1.status = 404 := by
  have h := claim_c3_unknown_session [] "gone" "f" rfl
  exact ⟨by rw [h.1], by rw [h.2.1]⟩

/-- Counterexample to C6 as stated: the claim quantifies over every
session, but a variant 1 session (whose GET /sse handler, src/index.ts
lines 540 to 553, schedules no keep-alive timer) that stays idle and
open across three heartbeat intervals has written no frame at all —
not the three frames the claimed liveness requires. -/
theorem claim_c6_counterexample :
    (kaRun kaInitV1 (List.replicate 3 (KAEvent.tick true))).written = [] ∧
    (kaRun kaInitV1 (List.replicate 3 (KAEvent.tick true))).written ≠
      List.replicate 3 heartbeatFrame := by
  refine ⟨rfl, ?_⟩
  decide

/-- Claim C6 (amended to the variant that starts a keep-alive timer,
the v1.1.0 /sse handler of README lines 377 to 405): while the stream
is open an idle session writes the comment-only heartbeat frame on
every tick of the scheduled interval timer, indefinitely (n ticks from
the open state write exactly n frames and leave the timer scheduled);
a failing write clears the timer instead of faulting; after the close
event no event sequence ever writes another frame; and the interval is
10 seconds.  Variant 1 schedules no timer and emits no heartbeat, as
the counterexample shows. -/
theorem claim_c6_keepalive :
    (∀ s : KeepAliveState, s.timerActive = true →
        (kaStep s (KAEvent.tick true)).written =
          s.written ++ [heartbeatFrame] ∧
        (kaStep s (KAEvent.tick true)).timerActive = true) ∧
    (∀ s : KeepAliveState, s.timerActive = true →
        (kaStep s (KAEvent.tick false)).written = s.written ∧
        (kaStep s (KAEvent.tick false)).timerActive = false) ∧
    (∀ (s : KeepAliveState) (evs : List KAEvent),
        (kaRun (kaStep s KAEvent.close) evs).written = s.written) ∧
    (∀ n : Nat,
        (kaRun kaInit (List.replicate n (KAEvent.tick true))).written =
          List.replicate n heartbeatFrame) ∧
    heartbeatFrame = ": keepalive\n\n" ∧
    keepAliveIntervalMs = 10000 := by
  refine ⟨?_, ?_, ?_, ?_, rfl, rfl⟩
  · intro s h
    constructor <;> simp [kaStep, h]
  · intro s h
    constructor <;> simp [kaStep, h]
  · intro s evs
    have hclose : (kaStep s KAEvent.close).timerActive = false := by
      simp [kaStep]
    have hw : (kaStep s KAEvent.close).written = s.written := by
      simp [kaStep]
    rw [(kaRun_inactive evs _ hclose).1, hw]
  · intro n
    have h := kaRun_ticks n kaInit rfl
    simpa [kaInit] using h.1

/-- Witness for C6: concrete runs of the keep-alive machine. -/
theorem claim_c6_witness :
    (kaStep kaInit (KAEvent.tick true)).written = [heartbeatFrame] ∧
    (kaRun (kaStep kaInit KAEvent.close)
      [KAEvent.tick true, KAEvent.tick true]).written = [] ∧
    (kaRun kaInit (List.replicate 3 (KAEvent.tick true))).written =
      List.replicate 3 heartbeatFrame := by
  refine ⟨?_, ?_, claim_c6_keepalive.2.2.2.1 3⟩
  · have h := (claim_c6_keepalive.1 kaInit rfl).1
    simpa [kaInit] using h
  · have h := claim_c6_keepalive.2.2.1 kaInit
      [KAEvent.tick true, KAEvent.tick true]
    simpa [kaInit] using h

/-- Claim C7: closing the stream removes the session from the table
idempotently, and every subsequent POST bearing the old identifier gets
the session-not-found error response of its variant with the table
unchanged. -/
theorem claim_c7_close_teardown (st : SessionTable) (sid frame : String) :
    V2.closeSession (V2.closeSession st sid) sid = V2.closeSession st sid ∧
    mapGet (V2.closeSession st sid) sid = none ∧
    V2.postMessage (V2.closeSession st sid) sid frame =
      ({ status := 404,
         body := Json.obj [("error", Json.str "Session not found")] },
       V2.closeSession st sid) ∧
    V1.closeSession (V1.closeSession st sid) sid = V1.closeSession st sid ∧
    mapGet (V1.closeSession st sid) sid = none ∧
    V1.postMessage (V1.closeSession st sid) sid frame =
      ({ status := 400,
         body := Json.obj [("error", Json.str "No active session")] },
       V1.closeSession st sid) := by
  have h2 : mapGet (mapDelete st sid) sid = none := mapGet_mapDelete_self st sid
  refine ⟨mapDelete_idem st sid, h2, ?_, mapDelete_idem st sid, h2, ?_⟩
  · unfold V2.postMessage V2.closeSession
    rw [h2]
  · unfold V1.postMessage V1.closeSession
    rw [h2]

/-- Claim C8: live sessions (the entries of the reachable session
tables of either variant) always carry pairwise distinct identifiers,
and a POST routes its invocation result frame exactly onto the stream
of the session whose identifier it carries, leaving every other
session untouched. -/
theorem claim_c8_session_isolation :
    (∀ evs : List SrvEvent, (tableKeys (V2.run evs)).Nodup) ∧
    (∀ evs : List SrvEventV1, (tableKeys (V1.run evs)).Nodup) ∧
    (∀ (st : SessionTable) (sid sid2 frame : String), sid2 ≠ sid →
        mapGet ((V2.postMessage st sid frame).2) sid2 = mapGet st sid2) ∧
    (∀ (st : SessionTable) (sid sid2 frame : String), sid2 ≠ sid →
        mapGet ((V1.postMessage st sid frame).2) sid2 = mapGet st sid2) ∧
    (∀ (st : SessionTable) (sid frame : String) (t : Transport),
        mapGet st sid = some t →
        mapGet ((V2.postMessage st sid frame).2) sid =
          some { t with streamOut := t.streamOut ++ [frame] }) ∧
    (∀ (st : SessionTable) (sid frame : String) (t : Transport),
        mapGet st sid = some t →
        mapGet ((V1.postMessage st sid frame).2) sid =
          some { t with streamOut := t.streamOut ++ [frame] }) :=
  ⟨nodupKeys_runV2, nodupKeys_runV1,
   fun st sid sid2 frame h => postMessageV2_other st sid sid2 frame h,
   fun st sid sid2 frame h => postMessageV1_other st sid sid2 frame h,
   fun st sid frame t h => postMessageV2_hit st sid frame t h,
   fun st sid frame t h => postMessageV1_hit st sid frame t h⟩

/-- Witness for C8: two concurrent sessions a and b; a POST carrying a
pushes on the stream of a only. -/
theorem claim_c8_witness :
    (tableKeys (V2.run
      [SrvEvent.connect ⟨"a", []⟩, SrvEvent.connect ⟨"b", []⟩])).Nodup ∧
    mapGet ((V2.postMessage [("a", ⟨"a", []⟩), ("b", ⟨"b", []⟩)]
      "a" "res").2) "b" = some ⟨"b", []⟩ ∧
    mapGet ((V2.postMessage [("a", ⟨"a", []⟩), ("b", ⟨"b", []⟩)]
      "a" "res").2) "a" = some ⟨"a", ["res"]⟩ := by
  refine ⟨claim_c8_session_isolation.1 _, ?_, ?_⟩
  · have h := claim_c8_session_isolation.2.2.1
      [("a", ⟨"a", []⟩), ("b", ⟨"b", []⟩)] "a" "b" "res" (by decide)
    rw [h]
    rfl
  · exact claim_c8_session_isolation.2.2.2.2.1
      [("a", ⟨"a", []⟩), ("b", ⟨"b", []⟩)] "a" "res" ⟨"a", []⟩ rfl

/-- Claim C10: in variant 1 the session is stored under the freshly
generated local random string; assuming that string differs from the
identifier the transport announces (and the announced identifier is not
already a key), a POST bearing the transport-announced identifier is
answered 400 No active session. -/
theorem claim_c10_variant1_key_mismatch (st : SessionTable)
    (localId : String) (t : Transport) (frame : String)
    (h1 : t.announcedId ≠ localId) (h2 : mapGet st t.announcedId = none) :
    mapGet (V1.sseConnect st localId t) localId = some t ∧
    mapGet (V1.sseConnect st localId t) t.announcedId = none ∧
    V1.postMessage (V1.sseConnect st localId t) t.announcedId frame =
      ({ status := 400,
         body := Json.obj [("error", Json.str "No active session")] },
       V1.sseConnect st localId t) := by
  have ha : mapGet (V1.sseConnect st localId t) t.announcedId = none := by
    unfold V1.sseConnect
    rw [mapGet_mapSet_ne st localId t.announcedId t h1, h2]
  refine ⟨mapGet_mapSet_self st localId t, ha, ?_⟩
  unfold V1.postMessage
  rw [ha]

/-- Witness for C10: a concrete connection whose transport announces a
UUID while the table is keyed by the local random string. -/
theorem claim_c10_witness :
    mapGet (V1.sseConnect [] "k7f2q"
      ⟨"6f9619ff-8b86-d011-b42d-00cf4fc964ff", []⟩) "k7f2q" =
      some ⟨"6f9619ff-8b86-d011-b42d-00cf4fc964ff", []⟩ ∧
    (V1.postMessage (V1.sseConnect [] "k7f2q"
      ⟨"6f9619ff-8b86-d011-b42d-00cf4fc964ff", []⟩)
      "6f9619ff-8b86-d011-b42d-00cf4fc964ff" "f").1.status = 400 := by
  have h := claim_c10_variant1_key_mismatch [] "k7f2q"
    ⟨"6f9619ff-8b86-d011-b42d-00cf4fc964ff", []⟩ "f" (by decide) rfl
  exact ⟨h.1, by rw [h.2.2]⟩


/-- Counterexample to C2 as stated: the variant 1 file-update handler
(createOrUpdateFile, src/index.ts lines 297 to 308), invoked without a
precondition token against an upstream on which the file exists with
sha abc123, performs no read at all: its upstream trace is exactly one
write, and that write carries no token instead of a fetched one. -/
theorem claim_c2_counterexample :
    existingFileOctokit.reposGetContent
      { owner := some "acme", repo := some "widgets",
        path := some "notes.txt", ref := none } =
      Except.ok existingFileJson ∧
    (V1.createOrUpdateFileT existingFileOctokit v1WriteArgsNoSha).2 =
      [UpstreamCall.createOrUpdateFileContents
        { owner := some "acme", repo := some "widgets",
          path := some "notes.txt", message := some "update",
          content := toBase64 "hello", branch := none, sha := none }] ∧
    ((V1.createOrUpdateFileT existingFileOctokit v1WriteArgsNoSha).2.all
      (fun c => !c.isRead)) = true :=
  ⟨rfl, rfl, rfl⟩

/-- Claim C2 (amended to the variant that implements auto-fetch, the
v1.1.0 create_or_update_file of README lines 157 to 196): invoked
without a truthy precondition token, the handler first reads the
file; a read response carrying a sha makes the write carry that fetched
token; a 404 read failure turns the invocation into a pure create that
forwards the absent caller token; any other read failure becomes the
error-flagged invocation result and no write is issued. -/
theorem claim_c2_amended_autofetch (ok : Octokit) (a : V2.WriteArgs)
    (hsha : truthyS a.sha = false) :
    (∀ (j v : Json),
        ok.reposGetContent
            { owner := some a.owner, repo := some a.repo,
              path := some a.path, ref := a.branch } =
          Except.ok j →
        j.getField? "sha" = some v →
        (V2.createOrUpdateFileT ok a).2 =
          [UpstreamCall.getContent
             { owner := some a.owner, repo := some a.repo,
               path := some a.path, ref := a.branch },
           UpstreamCall.createOrUpdateFileContents
             { owner := some a.owner, repo := some a.repo,
               path := some a.path, message := some a.message,
               content := toBase64 a.content, branch := a.branch,
               sha := some (jsCoerceString v) }]) ∧
    (∀ e : JsError,
        ok.reposGetContent
            { owner := some a.owner, repo := some a.repo,
              path := some a.path, ref := a.branch } =
          Except.error e →
        e.status = some 404 →
        (V2.createOrUpdateFileT ok a).2 =
          [UpstreamCall.getContent
             { owner := some a.owner, repo := some a.repo,
               path := some a.path, ref := a.branch },
           UpstreamCall.createOrUpdateFileContents
             { owner := some a.owner, repo := some a.repo,
               path := some a.path, message := some a.message,
               content := toBase64 a.content, branch := a.branch,
               sha := a.sha }]) ∧
    (∀ e : JsError,
        ok.reposGetContent
            { owner := some a.owner, repo := some a.repo,
              path := some a.path, ref := a.branch } =
          Except.error e →
        e.status ≠ some 404 →
        (V2.createOrUpdateFileT ok a).1 =
          { content := [ContentBlock.text ("Error: " ++ jsErrorString e)],
            isError := true } ∧
        (V2.createOrUpdateFileT ok a).2 =
          [UpstreamCall.getContent
             { owner := some a.owner, repo := some a.repo,
               path := some a.path, ref := a.branch }]) := by
  refine ⟨?_, ?_, ?_⟩
  · intro j v hread hfield
    simp only [V2.createOrUpdateFileT, hsha, Bool.false_eq_true, if_false]
    simp only [hread, hfield]
    cases hw : ok.reposCreateOrUpdateFileContents
        { owner := some a.owner, repo := some a.repo, path := some a.path,
          message := some a.message, content := toBase64 a.content,
          branch := a.branch, sha := some (jsCoerceString v) } <;>
      simp [hw]
  · intro e hread h404
    simp only [V2.createOrUpdateFileT, hsha, Bool.false_eq_true, if_false]
    simp only [hread, h404, if_pos]
    cases hw : ok.reposCreateOrUpdateFileContents
        { owner := some a.owner, repo := some a.repo, path := some a.path,
          message := some a.message, content := toBase64 a.content,
          branch := a.branch, sha := a.sha } <;>
      simp [hw]
  · intro e hread hne
    simp only [V2.createOrUpdateFileT, hsha, Bool.false_eq_true, if_false]
    simp only [hread, if_neg hne]
    constructor <;> trivial

/-- Witness for C2: the three auto-fetch paths at concrete inputs (the
file exists with sha abc123; the file is absent and the read 404s; the
read fails with a 500). -/
theorem claim_c2_witness :
    (V2.createOrUpdateFileT existingFileOctokit v2WriteArgsNoSha).2 =
      [UpstreamCall.getContent
         { owner := some "acme", repo := some "widgets",
           path := some "notes.txt", ref := none },
       UpstreamCall.createOrUpdateFileContents
         { owner := some "acme", repo := some "widgets",
           path := some "notes.txt", message := some "update",
           content := toBase64 "hello", branch := none,
           sha := some "abc123" }] ∧
    (V2.createOrUpdateFileT missingFileOctokit v2WriteArgsNoSha).2 =
      [UpstreamCall.getContent
         { owner := some "acme", repo := some "widgets",
           path := some "notes.txt", ref := none },
       UpstreamCall.createOrUpdateFileContents
         { owner := some "acme", repo := some "widgets",
           path := some "notes.txt", message := some "update",
           content := toBase64 "hello", branch := none, sha := none }] ∧
    (V2.createOrUpdateFileT
        (failingOctokit { status := some 500, message := "boom" })
        v2WriteArgsNoSha).1 =
      { content := [ContentBlock.text "Error: HttpError: boom"],
        isError := true } := by
  refine ⟨?_, ?_, ?_⟩
  · exact (claim_c2_amended_autofetch existingFileOctokit v2WriteArgsNoSha
      rfl).1 existingFileJson (Json.str "abc123") rfl rfl
  · exact (claim_c2_amended_autofetch missingFileOctokit v2WriteArgsNoSha
      rfl).2.1 { status := some 404, message := "Not Found" } rfl rfl
  · exact ((claim_c2_amended_autofetch
      (failingOctokit { status := some 500, message := "boom" })
      v2WriteArgsNoSha rfl).2.2
      { status := some 500, message := "boom" } rfl (by decide)).1

/-- Claim C5: the delete tool invoked without a truthy precondition
token first reads the file; when the read fails (in particular the 404
of an absent file) or yields no sha, the invocation is reported as an
error-flagged result and the upstream trace holds the read only, so no
delete is ever issued. -/
theorem claim_c5_delete_autofetch (ok : Octokit) (a : V2.DeleteArgs)
    (hsha : truthyS a.sha = false) :
    (∀ e : JsError,
        ok.reposGetContent
            { owner := some a.owner, repo := some a.repo,
              path := some a.path, ref := a.branch } =
          Except.error e →
        (V2.deleteFileT ok a).1 =
          { content := [ContentBlock.text ("Error: " ++ jsErrorString e)],
            isError := true } ∧
        (V2.deleteFileT ok a).2 =
          [UpstreamCall.getContent
             { owner := some a.owner, repo := some a.repo,
               path := some a.path, ref := a.branch }]) ∧
    (∀ j : Json,
        ok.reposGetContent
            { owner := some a.owner, repo := some a.repo,
              path := some a.path, ref := a.branch } =
          Except.ok j →
        j.getField? "sha" = none →
        (V2.deleteFileT ok a).1 =
          { content := [ContentBlock.text "Error: Could not get file SHA"],
            isError := true } ∧
        (V2.deleteFileT ok a).2 =
          [UpstreamCall.getContent
             { owner := some a.owner, repo := some a.repo,
               path := some a.path, ref := a.branch }]) := by
  refine ⟨?_, ?_⟩
  · intro e hread
    simp only [V2.deleteFileT, hsha, Bool.false_eq_true, if_false]
    simp only [hread]
    constructor <;> trivial
  · intro j hread hfield
    simp only [V2.deleteFileT, hsha, Bool.false_eq_true, if_false]
    simp only [hread, hfield]
    constructor <;> trivial

/-- Witness for C5: deleting an absent file (404 read) without a token
yields the error-flagged result, and the trace holds no delete. -/
theorem claim_c5_witness :
    (V2.deleteFileT
        (failingOctokit { status := some 404, message := "Not Found" })
        v2DeleteArgsNoSha).1 =
      { content := [ContentBlock.text "Error: HttpError: Not Found"],
        isError := true } ∧
    (V2.deleteFileT
        (failingOctokit { status := some 404, message := "Not Found" })
        v2DeleteArgsNoSha).2.all (fun c => !c.isDelete) = true := by
  have h := (claim_c5_delete_autofetch
    (failingOctokit { status := some 404, message := "Not Found" })
    v2DeleteArgsNoSha rfl).1
    { status := some 404, message := "Not Found" } rfl
  exact ⟨h.1, by rw [h.2]; rfl⟩

end GithubMcpSse
